import Mathlib

/-
Verification of the UKB agent orchestration core.

This file is a shallow embedding, in Lean 4, of the orchestration loop and its
collaborators from the repository:

  * src/config/settings.py   — the Language enumeration
  * src/config/prompts.py    — PromptTemplate, ERROR_MESSAGES, get_error_message,
                               detect_language
  * src/core/exceptions.py   — the UKBSearchException hierarchy (embedded as a
                               tagged variant), handle_exceptions, and
                               convert_error_to_response
  * src/api/client.py        — GLMClient._check_rate_limit and chat_completion
  * src/agents/ukb_agent.py  — UKBAgent._execute_tool, UKBAgent.run,
                               run_agent_safe

External collaborators (the remote LLM transport, Python's json module, and
the SQL-backed tool bodies from ukb_tools, which are not part of the core) are
modelled as explicit function parameters, so the embedded control logic is
exactly the repository's and the environment is arbitrary.  Python dicts at
the JSON boundary are association lists; Python floats used as wall-clock
times and as the language-detection ratio are modelled as rationals (the only
comparison any claim depends on is at the exact boundary 3/10, where the
float computation agrees with the rational one).  Exceptions are modelled
with Except.
-/

namespace UKB

/-- The supported languages (src/config/settings.py, class Language). -/
inductive Language where
  | zh
  | en
deriving DecidableEq

/-- The .value attribute of the Language enum ("zh" / "en"). -/
def Language.value : Language → String
  | Language.zh => "zh"
  | Language.en => "en"

/-- A JSON-serializable Python value, as used for tool arguments and for the
details payloads of exceptions and response envelopes. -/
inductive Value where
  | vint (n : Int)
  | vstr (s : String)
  | vbool (b : Bool)
  | vnull
  | vobj (kvs : List (String × Value))

/-- Python str() of a Value (used when str.format substitutes a detail value
into a message template). -/
def Value.pyStr : Value → String
  | Value.vint n => toString n
  | Value.vstr s => s
  | Value.vbool b => if b then "True" else "False"
  | Value.vnull => "None"
  | Value.vobj _ => "<dict>"

/-- Python str() of an Option Value, where Python's dict.get returns None for
a missing key and str(None) = "None". -/
def pyStrOpt : Option Value → String
  | none => "None"
  | some v => v.pyStr

/-- Replace occurrences of a pattern in a character list (fuel-indexed so the
recursion is structural; the fuel is the length of the scanned list, and each
step consumes at least one character). Models Python str.replace / the
substitutions performed by str.format for the simple named placeholders used
in this repository's templates. -/
def replace_aux (pat rep : List Char) : Nat → List Char → List Char
  | _, [] => []
  | 0, s => s
  | Nat.succ fuel, c :: cs =>
    if pat ≠ [] ∧ pat.isPrefixOf (c :: cs) then
      rep ++ replace_aux pat rep fuel (List.drop (pat.length - 1) cs)
    else
      c :: replace_aux pat rep fuel cs

/-- String replacement built on replace_aux. -/
def str_replace (s pat rep : String) : String :=
  String.mk (replace_aux pat.data rep.data s.data.length s.data)

/-- src/config/prompts.py, class PromptTemplate: a Chinese and an English
variant of one message. -/
structure PromptTemplate where
  zh : String
  en : String

/-- PromptTemplate.get: `self.zh if language == Language.CHINESE else self.en`. -/
def PromptTemplate.get (t : PromptTemplate) (language : Language) : String :=
  if language = Language.zh then t.zh else t.en

/-- PromptTemplate.format: fetch the variant for the language and substitute
the keyword arguments (str.format with named placeholders, each value already
rendered with str()). -/
def PromptTemplate.format (t : PromptTemplate) (language : Language)
    (kwargs : List (String × String)) : String :=
  kwargs.foldl (fun acc kv => str_replace acc ("\x7b" ++ kv.1 ++ "\x7d") kv.2)
    (t.get language)

/-- ERROR_MESSAGES["field_not_found"] (src/config/prompts.py). -/
def field_not_found_template : PromptTemplate :=
  { zh := "字段 \x7bfield_id\x7d 不存在，请检查字段ID是否正确。"
    en := "Field \x7bfield_id\x7d not found. Please check if the field ID is correct." }

/-- ERROR_MESSAGES["search_no_results"] (src/config/prompts.py). -/
def search_no_results_template : PromptTemplate :=
  { zh := "没有找到包含关键词 '\x7bkeyword\x7d' 的字段。请尝试其他关键词。"
    en := "No fields found containing keyword '\x7bkeyword\x7d'. Please try other keywords." }

/-- ERROR_MESSAGES["category_not_found"] (src/config/prompts.py). -/
def category_not_found_template : PromptTemplate :=
  { zh := "分类 '\x7bcategory\x7d' 不存在。请使用 get_all_categories 查看可用分类。"
    en := "Category '\x7bcategory\x7d' not found. Please use get_all_categories to view available categories." }

/-- ERROR_MESSAGES["encoding_not_found"] (src/config/prompts.py). -/
def encoding_not_found_template : PromptTemplate :=
  { zh := "编码 \x7bencoding_id\x7d 不存在，请检查编码ID是否正确。"
    en := "Encoding \x7bencoding_id\x7d not found. Please check if the encoding ID is correct." }

/-- ERROR_MESSAGES["api_error"] (src/config/prompts.py). -/
def api_error_template : PromptTemplate :=
  { zh := "API调用失败：\x7berror\x7d。请稍后重试。"
    en := "API call failed: \x7berror\x7d. Please try again later." }

/-- ERROR_MESSAGES["rate_limit_exceeded"] (src/config/prompts.py). -/
def rate_limit_exceeded_template : PromptTemplate :=
  { zh := "请求频率过高，请稍后再试。"
    en := "Rate limit exceeded. Please try again later." }

/-- The ERROR_MESSAGES table (src/config/prompts.py). -/
def ERROR_MESSAGES : List (String × PromptTemplate) :=
  [("field_not_found", field_not_found_template),
   ("search_no_results", search_no_results_template),
   ("category_not_found", category_not_found_template),
   ("encoding_not_found", encoding_not_found_template),
   ("api_error", api_error_template),
   ("rate_limit_exceeded", rate_limit_exceeded_template)]

/-- src/config/prompts.py, get_error_message: look the template up by key and
format it; an unknown key falls back to the api_error template with the
message "Unknown error: key". -/
def get_error_message (error_type : String) (language : Language)
    (kwargs : List (String × String)) : String :=
  match ERROR_MESSAGES.lookup error_type with
  | some t => t.format language kwargs
  | none =>
      ((ERROR_MESSAGES.lookup "api_error").getD api_error_template).format language
        [("error", "Unknown error: " ++ error_type)]

/-- Count of characters in the CJK range, src/config/prompts.py
detect_language: `sum(1 for char in text if u4e00 <= char <= u9fff)`. -/
def chinese_chars (text : String) : Nat :=
  (text.data.filter (fun c => decide (0x4e00 ≤ c.toNat ∧ c.toNat ≤ 0x9fff))).length

/-- Count of non-space characters, src/config/prompts.py detect_language:
`len(text.replace(' ', ''))` (only the ASCII space is stripped). -/
def total_chars (text : String) : Nat :=
  (text.data.filter (fun c => c != ' ')).length

/-- src/config/prompts.py, detect_language: Chinese when no non-space
characters, otherwise Chinese iff the CJK ratio exceeds 0.3. The Python
float ratio is modelled as a rational; 0.3 is the exact rational 3/10
(at the only boundary any claim touches — ratio exactly 3/10 — the float
comparison `c/t > 0.3` is also false, since c/t then rounds to the same
double as the literal 0.3). -/
def detect_language (text : String) : Language :=
  if total_chars text = 0 then Language.zh
  else if (3 : ℚ) / 10 < (chinese_chars text : ℚ) / (total_chars text : ℚ) then Language.zh
  else Language.en

/-- The UKBSearchException hierarchy of src/core/exceptions.py as a tagged
variant.  Constructor payloads are the constructor arguments of the Python
classes; message, error_code, details and the class name are derived below
exactly as each __init__ builds them.  `baseExc` stands for a plain
UKBSearchException (covering the classes no claim exercises), and
`unexpectedWrap` is the UKBSearchException that the handle_exceptions
decorator builds around a non-UKB exception escaping a decorated function. -/
inductive UKBError where
  | apiError (message : String) (api_name : Option String) (status_code : Option Int)
  | fieldNotFound (field_id : Int)
  | encodingNotFound (encoding_id : Int)
  | categoryNotFound (category_name : String)
  | rateLimit (message : String) (retry_after : Option Int)
  | toolExecution (tool_name : String) (msg : String)
  | unexpectedWrap (fn : String) (orig : String)
  | baseExc (message : String) (error_code : String) (details : List (String × Value))

/-- str(e) for each exception: the message attribute, as each __init__ in
src/core/exceptions.py constructs it. -/
def UKBError.message : UKBError → String
  | UKBError.apiError m _ _ => m
  | UKBError.fieldNotFound fid => "Field " ++ toString fid ++ " not found in database"
  | UKBError.encodingNotFound eid => "Encoding " ++ toString eid ++ " not found in database"
  | UKBError.categoryNotFound c => "Category '" ++ c ++ "' not found in database"
  | UKBError.rateLimit m _ => m
  | UKBError.toolExecution t m => "Tool '" ++ t ++ "' execution failed: " ++ m
  | UKBError.unexpectedWrap fn orig => "Unexpected error in " ++ fn ++ ": " ++ orig
  | UKBError.baseExc m _ _ => m

/-- The stable error_code attribute of each exception class. -/
def UKBError.error_code : UKBError → String
  | UKBError.apiError _ _ _ => "API_ERROR"
  | UKBError.fieldNotFound _ => "FIELD_NOT_FOUND"
  | UKBError.encodingNotFound _ => "ENCODING_NOT_FOUND"
  | UKBError.categoryNotFound _ => "CATEGORY_NOT_FOUND"
  | UKBError.rateLimit _ _ => "RATE_LIMIT_EXCEEDED"
  | UKBError.toolExecution _ _ => "TOOL_EXECUTION_ERROR"
  | UKBError.unexpectedWrap _ _ => "UNEXPECTED_ERROR"
  | UKBError.baseExc _ code _ => code

/-- The details dict of each exception, as each __init__ populates it (with
the optional extra details argument left at its default None). -/
def UKBError.details : UKBError → List (String × Value)
  | UKBError.apiError _ api_name status_code =>
      (match api_name with | some a => [("api_name", Value.vstr a)] | none => []) ++
      (match status_code with | some s => [("status_code", Value.vint s)] | none => [])
  | UKBError.fieldNotFound fid => [("field_id", Value.vint fid)]
  | UKBError.encodingNotFound eid => [("encoding_id", Value.vint eid)]
  | UKBError.categoryNotFound c => [("category_name", Value.vstr c)]
  | UKBError.rateLimit _ retry_after =>
      (match retry_after with | some r => [("retry_after", Value.vint r)] | none => [])
  | UKBError.toolExecution t _ => [("tool_name", Value.vstr t)]
  | UKBError.unexpectedWrap fn orig =>
      [("function", Value.vstr fn), ("original_error", Value.vstr orig)]
  | UKBError.baseExc _ _ d => d

/-- type(e).__name__ for each exception class. -/
def UKBError.className : UKBError → String
  | UKBError.apiError _ _ _ => "APIError"
  | UKBError.fieldNotFound _ => "FieldNotFoundError"
  | UKBError.encodingNotFound _ => "EncodingNotFoundError"
  | UKBError.categoryNotFound _ => "CategoryNotFoundError"
  | UKBError.rateLimit _ _ => "RateLimitError"
  | UKBError.toolExecution _ _ => "ToolExecutionError"
  | UKBError.unexpectedWrap _ _ => "UKBSearchException"
  | UKBError.baseExc _ _ _ => "UKBSearchException"

/-- src/core/exceptions.py, convert_error_to_response: the language string is
mapped to the Language enum ("zh" selects Chinese, anything else English). -/
def response_language (language : String) : Language :=
  if language = "zh" then Language.zh else Language.en

/-- src/core/exceptions.py, convert_error_to_response: pick the user-facing
message by isinstance dispatch (field / encoding / category / rate-limit get
their dedicated templates with the structured detail substituted; every other
exception gets the api_error template carrying error.message), then build the
response dict with the stable code and the details payload. -/
def convert_error_to_response (error : UKBError) (language : String) :
    List (String × Value) :=
  let lang := response_language language
  let user_message :=
    match error with
    | UKBError.fieldNotFound _ =>
        get_error_message "field_not_found" lang
          [("field_id", pyStrOpt (error.details.lookup "field_id"))]
    | UKBError.encodingNotFound _ =>
        get_error_message "encoding_not_found" lang
          [("encoding_id", pyStrOpt (error.details.lookup "encoding_id"))]
    | UKBError.categoryNotFound _ =>
        get_error_message "category_not_found" lang
          [("category", pyStrOpt (error.details.lookup "category_name"))]
    | UKBError.rateLimit _ _ =>
        get_error_message "rate_limit_exceeded" lang []
    | _ =>
        get_error_message "api_error" lang [("error", error.message)]
  [("ok", Value.vbool false),
   ("error", Value.vstr error.error_code),
   ("message", Value.vstr user_message),
   ("details", Value.vobj error.details)]

/-- One hexadecimal digit (lower case), for JSON control-character escapes. -/
def hex_digit (n : Nat) : String :=
  String.singleton (Char.ofNat (if n < 10 then 48 + n else 87 + n))

/-- The escaping json.dumps(..., ensure_ascii=False) applies to one character
of a string value. -/
def json_escape_char (c : Char) : String :=
  if c = '\\' then "\\\\"
  else if c = '"' then "\\\""
  else if c = '\n' then "\\n"
  else if c = '\t' then "\\t"
  else if c = '\r' then "\\r"
  else if c.toNat = 8 then "\\b"
  else if c.toNat = 12 then "\\f"
  else if c.toNat < 32 then "\\u00" ++ hex_digit (c.toNat / 16) ++ hex_digit (c.toNat % 16)
  else String.singleton c

/-- json.dumps escaping of a whole string value. -/
def json_escape (s : String) : String :=
  s.data.foldl (fun acc c => acc ++ json_escape_char c) ""

/-- The serialized tool-failure object built in UKBAgent.run
(src/agents/ukb_agent.py): json.dumps of the one-key dict mapping "error" to
s, with ensure_ascii=False. -/
def json_dumps_error (s : String) : String :=
  "\x7b\"error\": \"" ++ json_escape s ++ "\"\x7d"

/-- One entry of the tool dispatch table (UKBAgent.tools_dispatch).  The tool
bodies live in ukb_tools, outside the core, so a handler is its Python
signature (required parameters, i.e. those without defaults, and optional
ones) together with an abstract implementation; the implementation returns
the tool result string or `Except.error m` for an invocation raising an
exception whose str() is m. -/
structure ToolHandler where
  fname : String
  required : List String
  optional : List String
  impl : List (String × Value) → Except String String

/-- The parameter names of a handler, as inspect.signature exposes them. -/
def ToolHandler.paramNames (h : ToolHandler) : List String :=
  h.required ++ h.optional

/-- The str() of the TypeError CPython raises when a call is missing required
keyword arguments (the exact prose of the interpreter message is abstracted;
what matters is that the call fails before the body runs). -/
def missing_args_message (fname : String) (missing : List String) : String :=
  fname ++ "() missing " ++ toString missing.length ++
    " required positional arguments: " ++ String.intercalate ", " missing

/-- CPython keyword-argument binding for `handler(**kwargs)`: if every
required parameter is bound the body runs, otherwise a TypeError is raised. -/
def callHandler (h : ToolHandler) (kwargs : List (String × Value)) :
    Except String String :=
  if h.required.all (fun p => (kwargs.lookup p).isSome) then h.impl kwargs
  else .error (missing_args_message h.fname
    (h.required.filter (fun p => (kwargs.lookup p).isNone)))

/-- src/agents/ukb_agent.py, UKBAgent._execute_tool: look the handler up in
the dispatch table (a ToolExecutionError "Tool 'name' not found" if absent),
filter the argument dict to the handler's signature parameters, and invoke
it; any exception from the invocation is re-raised as a ToolExecutionError
carrying the tool name and str(e). -/
def execute_tool (dispatch : String → Option ToolHandler) (tool_name : String)
    (tool_args : List (String × Value)) : Except UKBError String :=
  match dispatch tool_name with
  | none => .error (UKBError.toolExecution tool_name ("Tool '" ++ tool_name ++ "' not found"))
  | some handler =>
    let valid_args := tool_args.filter (fun kv => handler.paramNames.contains kv.1)
    match callHandler handler valid_args with
    | .ok result => .ok result
    | .error m => .error (UKBError.toolExecution tool_name m)

/-- The arguments attached to a model-issued tool call: either already a dict
or a JSON string still to be parsed (tool_call.function.arguments; a Python
None has already been replaced by the empty dict, mirroring `or {}`). -/
inductive ArgPayload where
  | pdict (kvs : List (String × Value))
  | pstr (s : String)

/-- A model-issued tool call (id, function.name, function.arguments). -/
structure ToolCall where
  id : String
  name : String
  arguments : ArgPayload

/-- One transcript message: role, content, and (for tool results) the
originating call id and tool name. -/
structure ChatMessage where
  role : String
  content : String
  tool_call_id : Option String
  name : Option String

/-- The relevant part of one chat-completion response
(response.choices[0].message): text content (possibly null) and the requested
tool calls (the empty list covering both an absent and an empty
tool_calls attribute, which the loop treats alike via `not getattr(...)`). -/
structure ChatResponse where
  content : Option String
  tool_calls : List ToolCall

/-- src/api/client.py, GLMClient.build_messages: resolve the language and the
system prompt if not supplied, then the two-message initial transcript.  The
system prompt text itself is configuration the spec excludes, so the default
prompt store is a parameter. -/
def build_messages (default_system_prompt : PromptTemplate) (user_query : String)
    (system_prompt : Option String) (language : Option Language) : List ChatMessage :=
  let lang := language.getD (detect_language user_query)
  let sp := system_prompt.getD (default_system_prompt.get lang)
  [{ role := "system", content := sp, tool_call_id := none, name := none },
   { role := "user", content := user_query, tool_call_id := none, name := none }]

/-- The tool-role transcript message appended for one processed tool call. -/
def tool_message (tc : ToolCall) (content : String) : ChatMessage :=
  { role := "tool", content := content, tool_call_id := some tc.id, name := some tc.name }

/-- The assistant-role message appended after a turn's tool calls
(`message.content or ""`). -/
def assistant_message (resp : ChatResponse) : ChatMessage :=
  { role := "assistant", content := resp.content.getD "", tool_call_id := none, name := none }

/-- json.loads applied to a tool call's argument payload when it is a string
(the `isinstance(tool_args, str)` branch of UKBAgent.run).  The parser jl is
Python's json module, an external collaborator passed in as a parameter;
`.error m` is a raised json.JSONDecodeError with str() = m. -/
def parseToolArgs (jl : String → Except String (List (String × Value)))
    (p : ArgPayload) : Except String (List (String × Value)) :=
  match p with
  | ArgPayload.pdict kvs => .ok kvs
  | ArgPayload.pstr s => jl s

/-- The per-turn tool loop of UKBAgent.run: for each call, parse the
arguments (a JSONDecodeError here is NOT inside the per-call try/except, so
it escapes — modelled as the `.error` case carrying the exception class name
and message), execute the tool with any failure caught and serialized as the
one-key error object, and append the tool-role message. -/
def processToolCalls (jl : String → Except String (List (String × Value)))
    (dispatch : String → Option ToolHandler) :
    List ToolCall → List ChatMessage → Except (String × String) (List ChatMessage)
  | [], msgs => .ok msgs
  | tc :: rest, msgs =>
    match parseToolArgs jl tc.arguments with
    | .error m => .error ("JSONDecodeError", m)
    | .ok args =>
      let tool_result :=
        match execute_tool dispatch tc.name args with
        | .ok r => r
        | .error e => json_dumps_error (e.className ++ ": " ++ e.message)
      processToolCalls jl dispatch rest (msgs ++ [tool_message tc tool_result])

/-- An exception escaping the loop body of UKBAgent.run: either a
UKBSearchException (from the transport) or a plain Python exception with its
class name (the JSONDecodeError case). -/
inductive RunRaise where
  | ukb (e : UKBError)
  | pyraw (excName : String) (msg : String)

/-- UKBAgent.max_iterations (src/agents/ukb_agent.py, __init__). -/
def max_iterations : Nat := 6

/-- The fixed exhaustion message returned when the iteration budget is spent
(the final return of UKBAgent.run). -/
def max_iterations_message (language : Language) : String :=
  if language = Language.zh then "对话轮次过多，请简化您的问题重新提问。"
  else "Too many conversation rounds, please simplify your question."

/-- src/agents/ukb_agent.py, the `for iteration in range(self.max_iterations)`
loop of UKBAgent.run, structurally recursing on the remaining iteration
budget.  The second component counts completed chat-completion round-trips
(the source's `iteration + 1`).  A transport exception is logged and
re-raised by the iteration's except-clause; a response without tool calls
returns `message.content or ""`; otherwise the turn's tool calls are
processed, the assistant message is appended, and the loop continues.
Exhausted fuel falls through to the fixed language-appropriate message. -/
def runLoop (jl : String → Except String (List (String × Value)))
    (dispatch : String → Option ToolHandler)
    (transport : List ChatMessage → Except UKBError ChatResponse)
    (lang : Language) :
    Nat → List ChatMessage → Nat → (Except RunRaise String) × Nat
  | 0, _, count => (.ok (max_iterations_message lang), count)
  | Nat.succ n, messages, count =>
    match transport messages with
    | .error e => (.error (RunRaise.ukb e), count + 1)
    | .ok message =>
      match message.tool_calls with
      | [] => (.ok (message.content.getD ""), count + 1)
      | tc :: rest =>
        match processToolCalls jl dispatch (tc :: rest) messages with
        | .error em => (.error (RunRaise.pyraw em.1 em.2), count + 1)
        | .ok messages2 =>
          runLoop jl dispatch transport lang n (messages2 ++ [assistant_message message]) (count + 1)

/-- The handle_exceptions decorator on UKBAgent.run: a UKBSearchException is
re-raised unchanged, any other exception is wrapped into a
UKBSearchException("Unexpected error in run: ...", "UNEXPECTED_ERROR", ...). -/
def handle_exceptions_run : Except RunRaise String → Except UKBError String
  | .ok s => .ok s
  | .error (RunRaise.ukb e) => .error e
  | .error (RunRaise.pyraw _ msg) => .error (UKBError.unexpectedWrap "run" msg)

/-- src/agents/ukb_agent.py, UKBAgent.run: resolve language and system
prompt, build the initial transcript, run the bounded loop, and apply the
handle_exceptions decorator at the boundary.  Returns the result together
with the number of chat-completion round-trips performed. -/
def run (jl : String → Except String (List (String × Value)))
    (dispatch : String → Option ToolHandler)
    (transport : List ChatMessage → Except UKBError ChatResponse)
    (default_system_prompt : PromptTemplate)
    (user_query : String) (system_prompt : Option String) (language : Option Language) :
    (Except UKBError String) × Nat :=
  let lang := language.getD (detect_language user_query)
  let sp := system_prompt.getD (default_system_prompt.get lang)
  let messages := build_messages default_system_prompt user_query (some sp) (some lang)
  let result := runLoop jl dispatch transport lang max_iterations messages 0
  (handle_exceptions_run result.1, result.2)

/-- src/agents/ukb_agent.py, run_agent_safe: resolve the language, run the
agent, and return the success envelope, or convert a UKBSearchException into
the error envelope.  (The trailing generic `except Exception` branch of the
source is unreachable in the embedding because run already wraps every
non-UKB exception, exactly as its decorator does in the source.) -/
def run_agent_safe (jl : String → Except String (List (String × Value)))
    (dispatch : String → Option ToolHandler)
    (transport : List ChatMessage → Except UKBError ChatResponse)
    (default_system_prompt : PromptTemplate)
    (user_query : String) (system_prompt : Option String) (language : Option Language) :
    List (String × Value) :=
  let lang := language.getD (detect_language user_query)
  match (run jl dispatch transport default_system_prompt user_query system_prompt (some lang)).1 with
  | .ok result =>
      [("ok", Value.vbool true),
       ("query", Value.vstr user_query),
       ("answer", Value.vstr result),
       ("language", Value.vstr lang.value)]
  | .error e => convert_error_to_response e lang.value

/-- src/api/client.py, the pruning step of GLMClient._check_rate_limit:
keep the request timestamps recorded less than 60 seconds ago. -/
def prune_requests (now : ℚ) (requests : List ℚ) : List ℚ :=
  requests.filter (fun req_time => decide (now - req_time < 60))

/-- src/api/client.py, GLMClient._check_rate_limit, acting on the _requests
state: a no-op when rate limiting is disabled; otherwise prune, then either
raise RateLimitError (leaving the pruned window as the new state, with no
timestamp consumed) when the quota is already used, or record this request. -/
def check_rate_limit (enable_rate_limiting : Bool) (rate_limit : Nat) (now : ℚ)
    (requests : List ℚ) : List ℚ × Option UKBError :=
  if enable_rate_limiting = false then (requests, none)
  else
    let pruned := prune_requests now requests
    if rate_limit ≤ pruned.length then
      (pruned,
       some (UKBError.rateLimit
         ("Rate limit exceeded. Maximum " ++ toString rate_limit ++ " requests per minute.")
         (some 60)))
    else (pruned ++ [now], none)

/-- src/api/client.py, GLMClient.chat_completion: check the rate limit first
(raising before anything is sent), then perform the transport call; the
body's try/except that maps SDK failures onto APIError/RateLimitError is
folded into the abstract transport, which already yields a UKBError. -/
def chat_completion (enable_rate_limiting : Bool) (rate_limit : Nat) (now : ℚ)
    (requests : List ℚ) (transport : Unit → Except UKBError ChatResponse) :
    List ℚ × Except UKBError ChatResponse :=
  match check_rate_limit enable_rate_limiting rate_limit now requests with
  | (requests2, some e) => (requests2, .error e)
  | (requests2, none) => (requests2, transport ())

/-
Concrete test fixtures for witnesses and counterexamples: a tiny json.loads
oracle, a one-tool dispatch table, and stub transports.
-/

/-- A concrete json.loads: parses the empty object, fails on anything else
with CPython's message for invalid input. -/
def jl0 : String → Except String (List (String × Value)) :=
  fun s => if s = "\x7b\x7d" then .ok [] else .error "Expecting value: line 1 column 1 (char 0)"

/-- A concrete default system prompt store. -/
def dp0 : PromptTemplate :=
  { zh := "系统提示", en := "system prompt" }

/-- A concrete handler with one required parameter, always succeeding. -/
def handler0 : ToolHandler :=
  { fname := "explain_field_by_id", required := ["field_id"], optional := []
    impl := fun _ => .ok "ok" }

/-- A concrete one-entry dispatch table. -/
def disp0 : String → Option ToolHandler :=
  fun n => if n = "explain_field_by_id" then some handler0 else none

/-- A tool-call-free response with text content. -/
def resp_plain : ChatResponse := { content := some "hello", tool_calls := [] }

/-- A tool-call-free response with null content. -/
def resp_null : ChatResponse := { content := none, tool_calls := [] }

/-- A tool call whose argument payload is a malformed JSON string. -/
def tc_badjson : ToolCall :=
  { id := "call_1", name := "explain_field_by_id", arguments := ArgPayload.pstr "oops" }

/-- A response carrying the malformed-JSON tool call. -/
def resp_badjson : ChatResponse := { content := some "", tool_calls := [tc_badjson] }

/-- A tool call for a name absent from the dispatch table, with a parsed
(empty) argument dict. -/
def tc_unknown : ToolCall :=
  { id := "call_2", name := "nope", arguments := ArgPayload.pdict [] }

/-- A response carrying the unknown-tool call. -/
def resp_unknown : ChatResponse := { content := some "thinking", tool_calls := [tc_unknown] }

/-- A transport that always answers without tool calls. -/
def transport_plain : List ChatMessage → Except UKBError ChatResponse :=
  fun _ => .ok resp_plain

/-- A transport that always answers with null content and no tool calls. -/
def transport_null : List ChatMessage → Except UKBError ChatResponse :=
  fun _ => .ok resp_null

/-- A transport that always requests the malformed-JSON tool call. -/
def transport_badjson : List ChatMessage → Except UKBError ChatResponse :=
  fun _ => .ok resp_badjson

/-- A transport that always requests the unknown-tool call. -/
def transport_unknown : List ChatMessage → Except UKBError ChatResponse :=
  fun _ => .ok resp_unknown

/-- A transport that always raises an APIError. -/
def transport_fail : List ChatMessage → Except UKBError ChatResponse :=
  fun _ => .error (UKBError.apiError "boom" none none)

/-
Helper lemmas about the loop, shared by several claims.
-/

/-- If every tool call's argument payload parses, the per-turn tool loop
never escapes with a JSONDecodeError. -/
lemma processToolCalls_parses_ok (jl : String → Except String (List (String × Value)))
    (dispatch : String → Option ToolHandler) :
    ∀ (calls : List ToolCall) (msgs : List ChatMessage),
      (∀ tc ∈ calls, ∃ a, parseToolArgs jl tc.arguments = Except.ok a) →
      ∃ msgs2, processToolCalls jl dispatch calls msgs = Except.ok msgs2 := by
  intro calls
  induction calls with
  | nil => exact fun msgs _ => ⟨msgs, rfl⟩
  | cons tc rest ih =>
    intro msgs h
    obtain ⟨a, ha⟩ := h tc (List.mem_cons_self tc rest)
    simp only [processToolCalls, ha]
    exact ih _ (fun tc2 h2 => h tc2 (List.mem_cons_of_mem _ h2))

/-- The loop performs at most as many round-trips as it has fuel. -/
lemma runLoop_count_le (jl : String → Except String (List (String × Value)))
    (dispatch : String → Option ToolHandler)
    (transport : List ChatMessage → Except UKBError ChatResponse) (lang : Language) :
    ∀ (n : Nat) (msgs : List ChatMessage) (count : Nat),
      (runLoop jl dispatch transport lang n msgs count).2 ≤ count + n := by
  intro n
  induction n with
  | zero => intro msgs count; simp [runLoop]
  | succ n ih =>
    intro msgs count
    simp only [runLoop]
    cases htr : transport msgs with
    | error e => simp
    | ok message =>
      cases hcalls : message.tool_calls with
      | nil => simp only [hcalls]; simp
      | cons tc rest =>
        simp only [hcalls]
        cases hp : processToolCalls jl dispatch (tc :: rest) msgs with
        | error em => simp
        | ok msgs2 =>
          simp only []
          have := ih (msgs2 ++ [assistant_message message]) (count + 1)
          omega

/-- If the transport always succeeds with a tool-call-carrying response whose
arguments all parse, the loop consumes its whole budget and returns the
exhaustion message. -/
lemma runLoop_exhausts (jl : String → Except String (List (String × Value)))
    (dispatch : String → Option ToolHandler)
    (transport : List ChatMessage → Except UKBError ChatResponse) (lang : Language)
    (H : ∀ msgs, ∃ r, transport msgs = Except.ok r ∧ r.tool_calls ≠ [] ∧
          ∀ tc ∈ r.tool_calls, ∃ a, parseToolArgs jl tc.arguments = Except.ok a) :
    ∀ (n : Nat) (msgs : List ChatMessage) (count : Nat),
      runLoop jl dispatch transport lang n msgs count =
        (Except.ok (max_iterations_message lang), count + n) := by
  intro n
  induction n with
  | zero => intro msgs count; simp [runLoop]
  | succ n ih =>
    intro msgs count
    obtain ⟨r, htr, hne, hargs⟩ := H msgs
    simp only [runLoop, htr]
    cases hcalls : r.tool_calls with
    | nil => exact absurd hcalls hne
    | cons tc rest =>
      obtain ⟨msgs2, hp⟩ :=
        processToolCalls_parses_ok jl dispatch (tc :: rest) msgs
          (fun tc2 h2 => hargs tc2 (hcalls ▸ h2))
      simp only [hp]
      rw [ih]
      have : count + 1 + n = count + (n + 1) := by omega
      rw [this]

/-- One iteration with a tool-call-free response terminates the loop with the
response's text content. -/
lemma runLoop_step_no_calls (jl : String → Except String (List (String × Value)))
    (dispatch : String → Option ToolHandler)
    (transport : List ChatMessage → Except UKBError ChatResponse) (lang : Language)
    (n : Nat) (msgs : List ChatMessage) (count : Nat) (r : ChatResponse)
    (htr : transport msgs = Except.ok r) (hcalls : r.tool_calls = []) :
    runLoop jl dispatch transport lang (Nat.succ n) msgs count =
      (Except.ok (r.content.getD ""), count + 1) := by
  simp only [runLoop, htr, hcalls]

/-- C1: whenever the transport returns a response with no tool calls, the
orchestration loop terminates successfully on that very iteration, returning
exactly that response's text content (the empty string when the content is
null); and every successful return of the loop is either such a
no-tool-call return or the separate exhaustion fallback, so the no-tool-call
return is the sole success-terminal state.  The third conjunct states the
same at the level of UKBAgent.run: with a transport that always answers
without tool calls, run returns that content after exactly one round-trip. -/
theorem C1_no_tool_calls
    (jl : String → Except String (List (String × Value)))
    (dispatch : String → Option ToolHandler)
    (transport : List ChatMessage → Except UKBError ChatResponse)
    (lang : Language) :
    (∀ (n : Nat) (msgs : List ChatMessage) (count : Nat) (r : ChatResponse),
       transport msgs = Except.ok r → r.tool_calls = [] →
       runLoop jl dispatch transport lang (Nat.succ n) msgs count =
         (Except.ok (r.content.getD ""), count + 1)) ∧
    (∀ (n : Nat) (msgs : List ChatMessage) (count : Nat) (s : String) (k : Nat),
       runLoop jl dispatch transport lang n msgs count = (Except.ok s, k) →
       s = max_iterations_message lang ∨
         ∃ msgs2 r, transport msgs2 = Except.ok r ∧ r.tool_calls = [] ∧
           s = r.content.getD "") ∧
    (∀ (default_system_prompt : PromptTemplate) (user_query : String)
       (system_prompt : Option String) (language : Option Language) (r : ChatResponse),
       (∀ msgs, transport msgs = Except.ok r) → r.tool_calls = [] →
       run jl dispatch transport default_system_prompt user_query system_prompt language =
         (Except.ok (r.content.getD ""), 1)) := by
  refine ⟨?_, ?_, ?_⟩
  · intro n msgs count r htr hcalls
    exact runLoop_step_no_calls jl dispatch transport lang n msgs count r htr hcalls
  · intro n
    induction n with
    | zero =>
      intro msgs count s k h
      left
      simp only [runLoop, Prod.mk.injEq, Except.ok.injEq] at h
      exact h.1.symm
    | succ n ih =>
      intro msgs count s k h
      simp only [runLoop] at h
      cases htr : transport msgs with
      | error e => rw [htr] at h; simp at h
      | ok message =>
        rw [htr] at h
        cases hcalls : message.tool_calls with
        | nil =>
          simp only [hcalls] at h
          right
          simp only [Prod.mk.injEq, Except.ok.injEq] at h
          exact ⟨msgs, message, htr, hcalls, h.1.symm⟩
        | cons tc rest =>
          simp only [hcalls] at h
          cases hp : processToolCalls jl dispatch (tc :: rest) msgs with
          | error em => rw [hp] at h; simp at h
          | ok msgs2 =>
            rw [hp] at h
            exact ih _ _ _ _ h
  · intro dp user_query system_prompt language r htr hcalls
    simp only [run, max_iterations]
    have h6 : (6 : Nat) = Nat.succ 5 := rfl
    rw [h6, runLoop_step_no_calls jl dispatch transport _ 5 _ 0 r (htr _) hcalls]
    rfl

/-- Witness for C1, at a transport with text content and one with null
content. -/
theorem C1_witness :
    run jl0 disp0 transport_plain dp0 "hi" none (some Language.en) = (Except.ok "hello", 1) ∧
    run jl0 disp0 transport_null dp0 "hi" none (some Language.en) = (Except.ok "", 1) :=
  ⟨(C1_no_tool_calls jl0 disp0 transport_plain Language.en).2.2 dp0 "hi" none
      (some Language.en) resp_plain (fun _ => rfl) rfl,
   (C1_no_tool_calls jl0 disp0 transport_null Language.en).2.2 dp0 "hi" none
      (some Language.en) resp_null (fun _ => rfl) rfl⟩

/-- C2 (counterexample): a transport whose every response carries a tool call
does NOT guarantee the exhaustion message — when the call's argument payload
is a malformed JSON string, json.loads raises outside the per-call try/except
and run propagates a (wrapped) exception after the first round-trip instead
of returning the exhaustion message. -/
theorem C2_counterexample :
    transport_badjson [] = Except.ok resp_badjson ∧
    resp_badjson.tool_calls.isEmpty = false ∧
    run jl0 disp0 transport_badjson dp0 "q2" none (some Language.en) =
      (Except.error (UKBError.unexpectedWrap "run" "Expecting value: line 1 column 1 (char 0)"), 1) :=
  ⟨rfl, rfl, rfl⟩

/-- C2 (amended): the loop performs at most 6 round-trips for every query;
and if every iteration's response carries tool calls whose argument payloads
all parse as JSON, run returns the fixed exhaustion message in the resolved
language (Chinese when the resolved language is Chinese, otherwise English)
after exactly 6 round-trips, raising nothing. -/
theorem C2_amended
    (jl : String → Except String (List (String × Value)))
    (dispatch : String → Option ToolHandler)
    (transport : List ChatMessage → Except UKBError ChatResponse)
    (default_system_prompt : PromptTemplate)
    (user_query : String) (system_prompt : Option String) (language : Option Language) :
    (run jl dispatch transport default_system_prompt user_query system_prompt language).2 ≤ 6 ∧
    ((∀ msgs, ∃ r, transport msgs = Except.ok r ∧ r.tool_calls ≠ [] ∧
        ∀ tc ∈ r.tool_calls, ∃ a, parseToolArgs jl tc.arguments = Except.ok a) →
      run jl dispatch transport default_system_prompt user_query system_prompt language =
        (Except.ok (max_iterations_message (language.getD (detect_language user_query))), 6)) := by
  constructor
  · exact runLoop_count_le jl dispatch transport _ max_iterations _ 0
  · intro H
    simp only [run]
    rw [runLoop_exhausts jl dispatch transport _ H max_iterations _ 0]
    rfl

/-- Witness for C2 (amended), at a transport that chains unknown-tool calls
with parseable (empty dict) arguments forever. -/
theorem C2_witness :
    run jl0 disp0 transport_unknown dp0 "hello" none (some Language.en) =
      (Except.ok "Too many conversation rounds, please simplify your question.", 6) := by
  refine (C2_amended jl0 disp0 transport_unknown dp0 "hello" none (some Language.en)).2 ?_
  intro msgs
  refine ⟨resp_unknown, rfl, List.cons_ne_nil _ _, ?_⟩
  intro tc htc
  rw [show resp_unknown.tool_calls = [tc_unknown] from rfl, List.mem_singleton] at htc
  subst htc
  exact ⟨[], rfl⟩

/-- C3 (counterexample): a tool call whose argument JSON is malformed is NOT
caught locally — json.loads runs before the per-call try/except, so the
exception escapes the loop and run aborts with a wrapped error instead of
appending a tool-role error message and continuing. -/
theorem C3_counterexample :
    parseToolArgs jl0 tc_badjson.arguments =
      Except.error "Expecting value: line 1 column 1 (char 0)" ∧
    run jl0 disp0 transport_badjson dp0 "hi3" none (some Language.zh) =
      (Except.error (UKBError.unexpectedWrap "run" "Expecting value: line 1 column 1 (char 0)"), 1) :=
  ⟨rfl, rfl⟩

/-- C3 (amended): any failure raised by tool dispatch (unknown tool name,
invocation exception, or missing-argument error) for a call whose arguments
did parse is caught within the iteration and serialized as the JSON object
with single key "error" and value "kind: message"; exactly one tool-role
message carrying it is appended in place of a result, and the loop proceeds
to the next round-trip.  (Malformed argument JSON, by contrast, aborts the
run — see the counterexample.) -/
theorem C3_amended
    (jl : String → Except String (List (String × Value)))
    (dispatch : String → Option ToolHandler)
    (transport : List ChatMessage → Except UKBError ChatResponse) (lang : Language)
    (tc : ToolCall) (rest : List ToolCall) (msgs : List ChatMessage)
    (args : List (String × Value)) (e : UKBError)
    (hparse : parseToolArgs jl tc.arguments = Except.ok args)
    (hexec : execute_tool dispatch tc.name args = Except.error e) :
    processToolCalls jl dispatch (tc :: rest) msgs =
      processToolCalls jl dispatch rest
        (msgs ++ [tool_message tc (json_dumps_error (e.className ++ ": " ++ e.message))]) ∧
    (tool_message tc (json_dumps_error (e.className ++ ": " ++ e.message))).role = "tool" ∧
    (∀ (n count : Nat) (resp : ChatResponse) (msgs2 : List ChatMessage),
       transport msgs = Except.ok resp → resp.tool_calls = tc :: rest →
       processToolCalls jl dispatch (tc :: rest) msgs = Except.ok msgs2 →
       runLoop jl dispatch transport lang (Nat.succ n) msgs count =
         runLoop jl dispatch transport lang n (msgs2 ++ [assistant_message resp]) (count + 1)) := by
  refine ⟨?_, rfl, ?_⟩
  · simp only [processToolCalls, hparse, hexec]
  · intro n count resp msgs2 htr hcalls hp
    simp only [runLoop, htr, hcalls, hp]

/-- Witness for C3 (amended): an unknown-tool call with parsed arguments is
serialized and the loop goes on. -/
theorem C3_witness :
    processToolCalls jl0 disp0 [tc_unknown] [] =
      Except.ok [tool_message tc_unknown (json_dumps_error
        ("ToolExecutionError: Tool 'nope' execution failed: Tool 'nope' not found"))] ∧
    runLoop jl0 disp0 transport_unknown Language.en (Nat.succ 0) [] 0 =
      runLoop jl0 disp0 transport_unknown Language.en 0
        ([tool_message tc_unknown (json_dumps_error
          ("ToolExecutionError: Tool 'nope' execution failed: Tool 'nope' not found"))] ++
         [assistant_message resp_unknown]) 1 := by
  have h := C3_amended jl0 disp0 transport_unknown Language.en tc_unknown [] [] []
      (UKBError.toolExecution "nope" "Tool 'nope' not found") rfl rfl
  exact ⟨h.1.trans rfl, h.2.2 0 0 resp_unknown _ rfl rfl (h.1.trans rfl)⟩

/-- C4 (counterexample): on an error path (transport raising APIError), the
envelope produced by run_agent_safe carries no "query" and no "language" key
at all, contradicting the claim that every envelope contains the echoed query
and the language tag. -/
theorem C4_counterexample :
    (run_agent_safe jl0 disp0 transport_fail dp0 "q4" none (some Language.en)).lookup "query" = none ∧
    (run_agent_safe jl0 disp0 transport_fail dp0 "q4" none (some Language.en)).lookup "language" = none ∧
    (run_agent_safe jl0 disp0 transport_fail dp0 "q4" none (some Language.en)).lookup "ok" =
      some (Value.vbool false) :=
  ⟨rfl, rfl, rfl⟩

/-- C4 (amended): run_agent_safe is total (never raises) and returns exactly
one envelope per invocation; on success the envelope's keys are ok / query /
answer / language with ok = True and the query echoed, while on every error
path the keys are ok / error / message / details with ok = False and neither
the echoed query nor the language tag present. -/
theorem C4_amended
    (jl : String → Except String (List (String × Value)))
    (dispatch : String → Option ToolHandler)
    (transport : List ChatMessage → Except UKBError ChatResponse)
    (default_system_prompt : PromptTemplate)
    (user_query : String) (system_prompt : Option String) (language : Option Language) :
    ((run_agent_safe jl dispatch transport default_system_prompt user_query system_prompt
        language).map Prod.fst = ["ok", "query", "answer", "language"] ∧
     (run_agent_safe jl dispatch transport default_system_prompt user_query system_prompt
        language).lookup "ok" = some (Value.vbool true) ∧
     (run_agent_safe jl dispatch transport default_system_prompt user_query system_prompt
        language).lookup "query" = some (Value.vstr user_query)) ∨
    ((run_agent_safe jl dispatch transport default_system_prompt user_query system_prompt
        language).map Prod.fst = ["ok", "error", "message", "details"] ∧
     (run_agent_safe jl dispatch transport default_system_prompt user_query system_prompt
        language).lookup "ok" = some (Value.vbool false) ∧
     (run_agent_safe jl dispatch transport default_system_prompt user_query system_prompt
        language).lookup "query" = none ∧
     (run_agent_safe jl dispatch transport default_system_prompt user_query system_prompt
        language).lookup "language" = none) := by
  simp only [run_agent_safe]
  cases h : (run jl dispatch transport default_system_prompt user_query system_prompt
      (some (language.getD (detect_language user_query)))).1 with
  | ok a => exact Or.inl ⟨rfl, rfl, rfl⟩
  | error e => exact Or.inr ⟨rfl, rfl, rfl, rfl⟩

/-- A unit-typed transport (as chat_completion consumes it) that raises. -/
def utransport_fail : Unit → Except UKBError ChatResponse :=
  fun _ => .error (UKBError.apiError "x" none none)

/-- A unit-typed transport that succeeds. -/
def utransport_ok : Unit → Except UKBError ChatResponse :=
  fun _ => .ok resp_plain

/-- Looking a key up in a filtered association list still misses when it was
missing in the original list. -/
lemma lookup_filter_none {β : Type} (p : String) (l : List (String × β))
    (f : String × β → Bool) (hl : l.lookup p = none) :
    (l.filter f).lookup p = none := by
  induction l with
  | nil => simp
  | cons kv t ih =>
    simp only [List.lookup] at hl
    cases hbeq : p == kv.1 with
    | true => rw [hbeq] at hl; simp at hl
    | false =>
      rw [hbeq] at hl
      by_cases hf : f kv
      · simp only [List.filter, hf, List.lookup, hbeq]
        exact ih hl
      · simp only [List.filter, hf]
        exact ih hl

/-- C5: with rate limiting enabled, once the quota of requests is already
recorded inside the trailing 60-second window, the next chat-completion
request fails with the RateLimitError before any transport call is attempted
(the outcome is identical for every transport); and once all recorded
timestamps have aged 60 seconds or more they are pruned, so the check passes
again and records the new request. -/
theorem C5_rate_limit (rate_limit : Nat) (now : ℚ) (requests : List ℚ)
    (transport transport2 : Unit → Except UKBError ChatResponse) :
    (rate_limit ≤ (prune_requests now requests).length →
      chat_completion true rate_limit now requests transport =
        (prune_requests now requests,
         Except.error (UKBError.rateLimit
           ("Rate limit exceeded. Maximum " ++ toString rate_limit ++ " requests per minute.")
           (some 60))) ∧
      chat_completion true rate_limit now requests transport =
        chat_completion true rate_limit now requests transport2) ∧
    ((∀ t ∈ requests, 60 ≤ now - t) → 0 < rate_limit →
      check_rate_limit true rate_limit now requests = ([now], none)) := by
  constructor
  · intro h
    have hcrl : check_rate_limit true rate_limit now requests =
        (prune_requests now requests,
         some (UKBError.rateLimit
           ("Rate limit exceeded. Maximum " ++ toString rate_limit ++ " requests per minute.")
           (some 60))) := by
      simp [check_rate_limit, h]
    constructor
    · simp [chat_completion, hcrl]
    · simp [chat_completion, hcrl]
  · intro hall hpos
    have hpr : prune_requests now requests = [] := by
      simp only [prune_requests, List.filter_eq_nil_iff]
      intro t ht
      have h60 := hall t ht
      simp only [decide_eq_true_eq, not_lt]
      exact h60
    have hnle : ¬ rate_limit ≤ (prune_requests now requests).length := by
      rw [hpr]
      simp only [List.length_nil]
      omega
    simp [check_rate_limit, hnle, hpr]
    omega

/-- Both timestamps 90 and 95 lie inside the window trailing time 100, so the
quota of 2 is already used. -/
lemma c5_quota_used : 2 ≤ (prune_requests 100 [90, 95]).length := by
  have h1 : ((100 : ℚ) - 90 < 60) := by norm_num
  have h2 : ((100 : ℚ) - 95 < 60) := by norm_num
  simp [prune_requests, h1, h2]

/-- Both timestamps 10 and 20 have aged at least 60 seconds by time 100. -/
lemma c5_window_rolled : ∀ t ∈ ([10, 20] : List ℚ), 60 ≤ 100 - t := by
  intro t ht
  simp only [List.mem_cons, List.mem_singleton] at ht
  rcases ht with h | h | h
  · subst h; norm_num
  · subst h; norm_num
  · simp at h

/-- Witness for C5: quota 2 already used inside the window rejects the third
request identically for two different transports; two stale timestamps are
pruned and the request recorded. -/
theorem C5_witness :
    chat_completion true 2 100 [90, 95] utransport_fail =
      (prune_requests 100 [90, 95],
       Except.error (UKBError.rateLimit
         ("Rate limit exceeded. Maximum " ++ toString 2 ++ " requests per minute.")
         (some 60))) ∧
    chat_completion true 2 100 [90, 95] utransport_fail =
      chat_completion true 2 100 [90, 95] utransport_ok ∧
    check_rate_limit true 2 100 [10, 20] = ([100], none) := by
  have h := (C5_rate_limit 2 100 [90, 95] utransport_fail utransport_ok).1 c5_quota_used
  exact ⟨h.1, h.2,
    (C5_rate_limit 2 100 [10, 20] utransport_fail utransport_ok).2 c5_window_rolled (by decide)⟩

/-- C6: dispatch filters the argument bundle to the target tool's accepted
parameter names — unknown keys are dropped with no effect on the outcome, and
a call whose filtered arguments satisfy the handler succeeds with the
handler's result; a call missing a required parameter fails with a
ToolExecutionError carrying that tool's name. -/
theorem C6_argument_filtering
    (dispatch : String → Option ToolHandler) (name : String) (h : ToolHandler)
    (args junk : List (String × Value))
    (hdisp : dispatch name = some h) :
    ((∀ kv ∈ junk, h.paramNames.contains kv.1 = false) →
       execute_tool dispatch name (args ++ junk) = execute_tool dispatch name args) ∧
    (∀ res, callHandler h (args.filter (fun kv => h.paramNames.contains kv.1)) = Except.ok res →
       execute_tool dispatch name args = Except.ok res) ∧
    (∀ p, p ∈ h.required → args.lookup p = none →
       ∃ m, execute_tool dispatch name args = Except.error (UKBError.toolExecution name m)) := by
  refine ⟨?_, ?_, ?_⟩
  · intro hjunk
    simp only [execute_tool, hdisp]
    have hfeq : (args ++ junk).filter (fun kv => h.paramNames.contains kv.1) =
        args.filter (fun kv => h.paramNames.contains kv.1) := by
      rw [List.filter_append]
      have hj : junk.filter (fun kv => h.paramNames.contains kv.1) = [] := by
        rw [List.filter_eq_nil_iff]
        intro kv hkv
        simpa using hjunk kv hkv
      rw [hj, List.append_nil]
    rw [hfeq]
  · intro res hcall
    simp only [execute_tool, hdisp, hcall]
  · intro p hreq hnone
    have hlf : ((args.filter (fun kv => h.paramNames.contains kv.1)).lookup p) = none :=
      lookup_filter_none p args _ hnone
    have hall : h.required.all
        (fun q => ((args.filter (fun kv => h.paramNames.contains kv.1)).lookup q).isSome) = false := by
      cases hallb : h.required.all
          (fun q => ((args.filter (fun kv => h.paramNames.contains kv.1)).lookup q).isSome) with
      | false => rfl
      | true =>
        have := List.all_eq_true.mp hallb p hreq
        rw [hlf] at this
        simp at this
    refine ⟨missing_args_message h.fname
      (h.required.filter
        (fun q => ((args.filter (fun kv => h.paramNames.contains kv.1)).lookup q).isNone)), ?_⟩
    simp only [execute_tool, hdisp, callHandler, hall]
    simp

/-- Witness for C6: an extra unknown key is dropped, the filtered call
succeeds, and a call missing the required field_id fails naming the tool. -/
theorem C6_witness :
    execute_tool disp0 "explain_field_by_id"
        [("field_id", Value.vint 31), ("bogus", Value.vstr "x")] =
      execute_tool disp0 "explain_field_by_id" [("field_id", Value.vint 31)] ∧
    execute_tool disp0 "explain_field_by_id" [("field_id", Value.vint 31)] = Except.ok "ok" ∧
    ∃ m, execute_tool disp0 "explain_field_by_id" [] =
      Except.error (UKBError.toolExecution "explain_field_by_id" m) := by
  have h := C6_argument_filtering disp0 "explain_field_by_id" handler0
      [("field_id", Value.vint 31)] [("bogus", Value.vstr "x")] rfl
  refine ⟨h.1 ?_, h.2.1 "ok" rfl, ?_⟩
  · intro kv hkv
    rw [List.mem_singleton] at hkv
    subst hkv
    rfl
  · exact (C6_argument_filtering disp0 "explain_field_by_id" handler0 [] [] rfl).2.2
      "field_id" (List.mem_singleton.mpr rfl) rfl

/-- C7: language detection is a pure function of its input (trivially
deterministic in the embedding); an input with no non-space characters
resolves to Chinese; a CJK ratio strictly above 3/10 resolves to Chinese; and
a ratio exactly at 3/10 falls on the English side. -/
theorem C7_detect_language_props (t : String) :
    detect_language t = detect_language t ∧
    (total_chars t = 0 → detect_language t = Language.zh) ∧
    (total_chars t ≠ 0 →
      (3 : ℚ) / 10 < (chinese_chars t : ℚ) / (total_chars t : ℚ) →
      detect_language t = Language.zh) ∧
    (total_chars t ≠ 0 →
      (chinese_chars t : ℚ) / (total_chars t : ℚ) = (3 : ℚ) / 10 →
      detect_language t = Language.en) := by
  refine ⟨rfl, ?_, ?_, ?_⟩
  · intro h
    simp [detect_language, h]
  · intro h hr
    simp [detect_language, h, hr]
  · intro h hr
    simp [detect_language, h, hr]

/-- Both characters of the all-CJK sample are CJK, so its ratio 2/2 exceeds
3/10. -/
lemma c7_ratio_above :
    (3 : ℚ) / 10 < (chinese_chars "你好" : ℚ) / (total_chars "你好" : ℚ) := by
  rw [show chinese_chars "你好" = 2 from by decide,
      show total_chars "你好" = 2 from by decide]
  norm_num

/-- The boundary sample has 3 CJK characters among 10 non-space characters:
its ratio is exactly 3/10. -/
lemma c7_ratio_boundary :
    (chinese_chars "你好吗abcdefg" : ℚ) / (total_chars "你好吗abcdefg" : ℚ) = (3 : ℚ) / 10 := by
  rw [show chinese_chars "你好吗abcdefg" = 3 from by decide,
      show total_chars "你好吗abcdefg" = 10 from by decide]
  norm_num

/-- Witness for C7: the empty string, an all-CJK string, and a string with
exactly 3 CJK characters among 10 non-space characters. -/
theorem C7_witness :
    detect_language "" = Language.zh ∧
    detect_language "你好" = Language.zh ∧
    detect_language "你好吗abcdefg" = Language.en :=
  ⟨(C7_detect_language_props "").2.1 (by decide),
   (C7_detect_language_props "你好").2.2.1 (by decide) c7_ratio_above,
   (C7_detect_language_props "你好吗abcdefg").2.2.2 (by decide) c7_ratio_boundary⟩

/-- C8: dispatching a name absent from the table fails with the
ToolExecutionError whose message reports the tool as not found (the source's
realization of the spec's ToolNotFound); dispatching a present name filters
the arguments to the handler's parameters and returns the handler's result
string. -/
theorem C8_dispatch
    (dispatch : String → Option ToolHandler) (name : String)
    (tool_args : List (String × Value)) :
    (dispatch name = none →
      execute_tool dispatch name tool_args =
        Except.error (UKBError.toolExecution name ("Tool '" ++ name ++ "' not found"))) ∧
    (∀ h res, dispatch name = some h →
      callHandler h (tool_args.filter (fun kv => h.paramNames.contains kv.1)) = Except.ok res →
      execute_tool dispatch name tool_args = Except.ok res) := by
  constructor
  · intro hd
    simp only [execute_tool, hd]
  · intro h res hd hcall
    simp only [execute_tool, hd, hcall]

/-- Witness for C8: the unknown name "nope" fails as not found; the known
tool runs and returns its result. -/
theorem C8_witness :
    execute_tool disp0 "nope" [] =
      Except.error (UKBError.toolExecution "nope" "Tool 'nope' not found") ∧
    execute_tool disp0 "explain_field_by_id" [("field_id", Value.vint 7)] = Except.ok "ok" :=
  ⟨(C8_dispatch disp0 "nope" []).1 rfl,
   (C8_dispatch disp0 "explain_field_by_id" [("field_id", Value.vint 7)]).2 handler0 "ok" rfl rfl⟩

/-- C9: the error normalizer is a pure function that maps field-not-found,
encoding-not-found, category-not-found and rate-limit-exceeded to their
language-specific templates with the structured detail substituted in, maps
every other error kind to the generic api_error template carrying the
original message, and preserves the stable error code and the details
payload in the envelope. -/
theorem C9_error_normalizer (e : UKBError) (language : String) :
    (convert_error_to_response e language).lookup "ok" = some (Value.vbool false) ∧
    (convert_error_to_response e language).lookup "error" = some (Value.vstr e.error_code) ∧
    (convert_error_to_response e language).lookup "details" = some (Value.vobj e.details) ∧
    (convert_error_to_response e language).lookup "message" = some (Value.vstr
      (match e with
       | UKBError.fieldNotFound fid =>
           field_not_found_template.format (response_language language)
             [("field_id", toString fid)]
       | UKBError.encodingNotFound eid =>
           encoding_not_found_template.format (response_language language)
             [("encoding_id", toString eid)]
       | UKBError.categoryNotFound c =>
           category_not_found_template.format (response_language language)
             [("category", c)]
       | UKBError.rateLimit _ _ =>
           rate_limit_exceeded_template.get (response_language language)
       | other =>
           api_error_template.format (response_language language)
             [("error", other.message)])) := by
  cases e <;> exact ⟨rfl, rfl, rfl, rfl⟩

/-- C10 (counterexample): with rate limiting disabled, the check passes
without recording any timestamp, so it is not true that every passing check
appends exactly one timestamp. -/
theorem C10_counterexample :
    (check_rate_limit false 60 10 [5]).2 = none ∧
    (check_rate_limit false 60 10 [5]).1 = [5] :=
  ⟨rfl, rfl⟩

/-- C10 (amended): with rate limiting enabled, a rejected check is atomic —
when it raises, the recorded window is exactly the pruned one (the rejected
request consumes no quota), and when it passes the new window is the pruned
one with exactly this request's timestamp appended; with rate limiting
disabled the check passes leaving the window untouched. -/
theorem C10_amended (rate_limit : Nat) (now : ℚ) (requests : List ℚ) :
    (∀ e, (check_rate_limit true rate_limit now requests).2 = some e →
       (check_rate_limit true rate_limit now requests).1 = prune_requests now requests) ∧
    ((check_rate_limit true rate_limit now requests).2 = none →
       (check_rate_limit true rate_limit now requests).1 = prune_requests now requests ++ [now]) ∧
    check_rate_limit false rate_limit now requests = (requests, none) := by
  refine ⟨?_, ?_, rfl⟩
  · intro e he
    by_cases hle : rate_limit ≤ (prune_requests now requests).length
    · simp [check_rate_limit, hle]
    · exfalso
      simp [check_rate_limit, hle] at he
  · intro he
    by_cases hle : rate_limit ≤ (prune_requests now requests).length
    · exfalso
      simp [check_rate_limit, hle] at he
    · simp [check_rate_limit, hle]

/-- Witness for C10 (amended): a rejecting check leaves the pruned window,
and a passing check appends the new timestamp. -/
theorem C10_witness :
    (check_rate_limit true 0 0 []).1 = prune_requests 0 [] ∧
    (check_rate_limit true 2 5 []).1 = prune_requests 5 [] ++ [5] :=
  ⟨(C10_amended 0 0 []).1
      (UKBError.rateLimit "Rate limit exceeded. Maximum 0 requests per minute." (some 60)) rfl,
   (C10_amended 2 5 []).2.1 rfl⟩

end UKB
